import Mathlib

/-!
Verification of the row-to-ticket mapping core of the Zendesk ticket importer
(src/main.rs), as a shallow embedding in Lean 4.

Modelling conventions:
* Machine integers (`u32`, `usize`, `i64`) are `Nat`/`Int`; where the Rust
  arithmetic can wrap (release-profile wrapping semantics), the reduction
  `% 2^32` (resp. `i64` saturation for float casts) is written explicitly.
* Spreadsheet floating-point cell values (`f64`) are modelled as exact
  rationals (`Rat`).  Every concrete numeric input used in a theorem below is
  an integer well inside `2^53`, where `f64` arithmetic of the source
  coincides with exact rational arithmetic, so the model is exact at those
  inputs.
* Fallible Rust code (`Result`, `?`) is modelled with the `RRes` type below;
  a reachable `panic!`/`unwrap()`-on-`None` in the source is reified as the
  `RRes.panicked` constructor instead of being hidden.
* `calamine::DataType` and its accessors, Rust string helpers and the
  `chrono`/`chrono-tz` date functions used by the source are external
  libraries; they are modelled from their documented behaviour (see the doc
  comments at the corresponding definitions).
-/

/-- `calamine::CellErrorType`: the spreadsheet error kinds a cell can hold. -/
inductive CellErrorType where
  | Div0 | NA | Name | Null | Num | Ref | Value | GettingData
deriving DecidableEq, Repr

/-- `calamine::DataType`: a heterogeneous spreadsheet cell value.  The `f64`
payload of `Float` is modelled as an exact rational (see the header note). -/
inductive DataType where
  | protected Int : Int → DataType
  | protected Float : Rat → DataType
  | protected String : String → DataType
  | protected Bool : Bool → DataType
  | protected Error : CellErrorType → DataType
  | protected Empty : DataType
deriving DecidableEq, Repr

/-- `calamine::DataType::get_string`: `Some` exactly on the `String` variant. -/
def DataType.get_string : DataType → Option String
  | .String s => some s
  | _ => none

/-- `calamine::DataType::get_float`: `Some` exactly on the `Float` variant. -/
def DataType.get_float : DataType → Option Rat
  | .Float x => some x
  | _ => none

/-- `calamine::DataType::get_bool`: `Some` exactly on the `Bool` variant. -/
def DataType.get_bool : DataType → Option Bool
  | .Bool b => some b
  | _ => none

/-- Outcome of running a piece of Rust code that returns
`anyhow::Result<α>` but may also panic: `ok` and `err` are the two `Result`
constructors, `panicked` reifies a reachable panic (e.g. `unwrap()` on
`None`), which in Rust aborts instead of returning. -/
inductive RRes (α : Type) where
  | ok : α → RRes α
  | err : String → RRes α
  | panicked : String → RRes α
deriving DecidableEq, Repr

/-- `Result::map` on the non-panicking constructors. -/
def RRes.map {α β : Type} (f : α → β) : RRes α → RRes β
  | .ok a => .ok (f a)
  | .err e => .err e
  | .panicked p => .panicked p

/-- `Option::transpose` on `Option<Result<α>>`, with panic propagation. -/
def otranspose {α : Type} : Option (RRes α) → RRes (Option α)
  | none => .ok none
  | some (.ok a) => .ok (some a)
  | some (.err e) => .err e
  | some (.panicked p) => .panicked p

/-- `Option::ok_or_else` followed by `?`: `some` passes through,
`none` becomes the given error. -/
def RRes.ofOption {α : Type} (o : Option α) (e : String) : RRes α :=
  match o with
  | some a => .ok a
  | none => .err e

/-- `char::is_ascii_alphabetic`. -/
def Char.isAsciiAlphabetic (c : Char) : Bool :=
  ('A' ≤ c && c ≤ 'Z') || ('a' ≤ c && c ≤ 'z')

/-- `char::to_ascii_lowercase`: ASCII uppercase letters are shifted by 32,
all other characters (ASCII or not) are unchanged. -/
def Char.toAsciiLower (c : Char) : Char :=
  if 'A' ≤ c && c ≤ 'Z' then Char.ofNat (c.toNat + 32) else c

/-- `str::to_ascii_lowercase` as a per-character map (equivalent to Rust's
per-byte map on UTF-8, since only ASCII bytes are changed). -/
def toAsciiLower (s : String) : String :=
  ⟨s.data.map Char.toAsciiLower⟩

/-- A `u32` wrapping subtraction `a - b` (both already reduced mod `2^32`
or known below it). -/
def u32sub (a b : Nat) : Nat :=
  (a + 4294967296 - b % 4294967296) % 4294967296

/-- The loop body of `excel_column_to_index`: iterates over the reversed
character list with `enumerate`; `num = (letter as u32) - 64` (wrapping),
`ans += num * 26u32.pow(idx)` with all `u32` products, powers and sums
wrapping mod `2^32` (release-profile semantics). -/
def ectiLoop : List Char → Nat → Nat → Nat
  | [], _, ans => ans
  | c :: rest, idx, ans =>
      ectiLoop rest (idx + 1)
        ((ans + u32sub c.toNat 64 * (26 ^ idx % 4294967296) % 4294967296) % 4294967296)

/-- `excel_column_to_index` from src/main.rs.  Note that the source line
`col_name.to_owned().make_ascii_uppercase()` uppercases an owned *copy* of
the label and discards it, so the original label is used unchanged; the model
reproduces that (no uppercasing happens).  The final `(ans - 1) as usize` is
a wrapping `u32` subtraction followed by zero extension. -/
def excel_column_to_index (col_name : String) : Option Nat :=
  if col_name = "" then
    none
  else
    some ((ectiLoop col_name.data.reverse 0 0 + 4294967295) % 4294967296)

/-- Spec-side definition (for comparison with `excel_column_to_index`),
following the specification's words: "treat the label as a base-26 numeral
with digits A=1..Z=26, most significant digit first; compute the numeric
value".  Digit of a character `c` is `c - 64` for uppercase ASCII. -/
def specColumnValue (l : String) : Nat :=
  l.data.foldl (fun acc c => acc * 26 + (c.toNat - 64)) 0

/-- `custom_deserializer` from src/main.rs, applied to the already
deserialized string: rejects labels with a non-ASCII-alphabetic character
with a configuration error, then evaluates
`excel_column_to_index(s).unwrap()` — the `unwrap` of a `None` (which
happens exactly on the empty label, since the alphabetic check is vacuously
true there) is a panic. -/
def custom_deserializer (s : String) : RRes Nat :=
  if !(s.data.all Char.isAsciiAlphabetic) then
    .err "Excel columns can\x27t contain non-ascii-aphabetic characters"
  else
    match excel_column_to_index s with
    | some n => .ok n
    | none => .panicked "called Option::unwrap() on a None value"

/-- `custom_deserializer_opt` from src/main.rs: same validation, but the
`Option` result of `excel_column_to_index` is returned directly (no
`unwrap`), so the empty label yields `ok none` — "field not mapped". -/
def custom_deserializer_opt (s : String) : RRes (Option Nat) :=
  if !(s.data.all Char.isAsciiAlphabetic) then
    .err "Excel columns can\x27t contain non-ascii-aphabetic characters"
  else
    .ok (excel_column_to_index s)

/-- `custom_flattener` from src/main.rs, with the `HashMap` iteration
modelled as a list in some iteration order: empty labels are skipped,
non-alphabetic labels are a configuration error, the rest are resolved with
`excel_column_to_index(v).unwrap()` (reified panic, unreachable here since
`v` is non-empty). -/
def custom_flattener : List (String × String) → RRes (List (String × Nat))
  | [] => .ok []
  | (k, v) :: rest =>
      if v = "" then
        custom_flattener rest
      else if !(v.data.all Char.isAsciiAlphabetic) then
        .err "Excel columns can\x27t contain non-ascii-aphabetic characters"
      else
        match excel_column_to_index v with
        | some n => RRes.map (fun m => (k, n) :: m) (custom_flattener rest)
        | none => .panicked "called Option::unwrap() on a None value"

/-- `Worksheet` section of the mapping configuration (src/main.rs,
`objects::config`). -/
structure Worksheet where
  name : String
  top_row : Nat
  timezone : String
deriving DecidableEq, Repr

/-- `ApiUrls` section of the configuration. -/
structure ApiUrls where
  get_fields : String
  post_many : String
deriving DecidableEq, Repr

/-- `Credentials` section of the configuration. -/
structure Credentials where
  api_token : String
  email : String
  subdomain : String
deriving DecidableEq, Repr

/-- `SystemFields`: the already-deserialized column indices of the system
fields (the deserializers above have been run; `comment` is mandatory, the
rest are optional). -/
structure SystemFields where
  comment : Nat
  subject : Option Nat
  status : Option Nat
  tickettype : Option Nat
  assignee : Option Nat
  priority : Option Nat
deriving DecidableEq, Repr

/-- `TicketFields`: system-field mapping plus the custom-field mapping.  The
source stores the custom mapping in a `HashMap<String, usize>` and iterates
it in an unspecified hash order; the model fixes one iteration order as a
list.  Every claim proved below is insensitive to that order. -/
structure TicketFields where
  system_fields : SystemFields
  custom_fields : List (String × Nat)
deriving DecidableEq, Repr

/-- `Config` from src/main.rs. -/
structure Config where
  urls : ApiUrls
  credentials : Credentials
  worksheet : Worksheet
  ticket : TicketFields
deriving DecidableEq, Repr

/-- Stand-in for Rust's `f64::to_string` (shortest round-trip decimal
display) on our exact-rational float model: integers print without a
fractional part, exactly as in Rust (`5.0_f64.to_string() == "5"`).
Non-integer values use the rational repr as an abstract stand-in; no theorem
below depends on the printed text of any float, only on both serializers
using the same function, as the source does. -/
def floatToString (x : Rat) : String :=
  if x.den = 1 then toString x.num else toString x

/-- Stand-in for Rust's pretty debug formatting `{:#?}` of
`Option<&DataType>` as used in the source's error messages: `None` prints as
"None" (exactly as in Rust); the `Some` case abbreviates Rust's multi-line
layout. No theorem below depends on the `Some`-case text. -/
def optionDataTypeDebug (d : Option DataType) : String :=
  match d with
  | none => "None"
  | some (.Int n) => "Some(Int(" ++ toString n ++ "))"
  | some (.Float x) => "Some(Float(" ++ floatToString x ++ "))"
  | some (.String s) => "Some(String(" ++ s ++ "))"
  | some (.Bool b) => "Some(Bool(" ++ toString b ++ "))"
  | some (.Error _) => "Some(Error(..))"
  | some .Empty => "Some(Empty)"

/-- `Priority` (src/main.rs) with its serde wire renames recorded by
`Priority.wire` below. -/
inductive Priority where
  | Low | Normal | High | Urgent
deriving DecidableEq, Repr

/-- The serde `rename` wire value of each `Priority` variant. -/
def Priority.wire : Priority → String
  | .Low => "low"
  | .Normal => "normal"
  | .High => "high"
  | .Urgent => "urgent"

/-- `Priority::from_str` (src/main.rs): lowercases the input with
`to_ascii_lowercase` and matches the accepted spellings (the error message,
including its "urgente/urgente" typo, is verbatim from the source). -/
def Priority.from_str (name : String) : RRes Priority :=
  if toAsciiLower name = "low" ∨ toAsciiLower name = "baixa" then .ok .Low
  else if toAsciiLower name = "normal" then .ok .Normal
  else if toAsciiLower name = "high" ∨ toAsciiLower name = "alta" then .ok .High
  else if toAsciiLower name = "urgent" ∨ toAsciiLower name = "urgente" then .ok .Urgent
  else .err "Unknown priority, expected low/baixa, normal, high/alta, urgente/urgente"

/-- `Status` (src/main.rs); note the `New` variant exists on the wire but has
no accepted input spelling in `from_str`. -/
inductive Status where
  | New | Open | Pending | Hold | Solved | Closed
deriving DecidableEq, Repr

/-- The serde `rename` wire value of each `Status` variant. -/
def Status.wire : Status → String
  | .New => "new"
  | .Open => "open"
  | .Pending => "pending"
  | .Hold => "hold"
  | .Solved => "solved"
  | .Closed => "closed"

/-- `Status::from_str` (src/main.rs). -/
def Status.from_str (name : String) : RRes Status :=
  if toAsciiLower name = "open" ∨ toAsciiLower name = "aberto" then .ok .Open
  else if toAsciiLower name = "pending" ∨ toAsciiLower name = "pendente" then .ok .Pending
  else if toAsciiLower name = "hold" ∨ toAsciiLower name = "em espera" then .ok .Hold
  else if toAsciiLower name = "solved" ∨ toAsciiLower name = "resolvido" then .ok .Solved
  else if toAsciiLower name = "closed" ∨ toAsciiLower name = "fechado" then .ok .Closed
  else .err "Unknown status, expected open/aberto, pending/pendente, hold/em espera, solved/resolvido, closed/fechado"

/-- `TicketType` (src/main.rs). -/
inductive TicketType where
  | Question | Incident | Problem | Task
deriving DecidableEq, Repr

/-- The serde `rename` wire value of each `TicketType` variant. -/
def TicketType.wire : TicketType → String
  | .Question => "question"
  | .Incident => "incident"
  | .Problem => "problem"
  | .Task => "task"

/-- `TicketType::from_str` (src/main.rs). -/
def TicketType.from_str (name : String) : RRes TicketType :=
  if toAsciiLower name = "question" ∨ toAsciiLower name = "pergunta" then .ok .Question
  else if toAsciiLower name = "incident" ∨ toAsciiLower name = "incidente" then .ok .Incident
  else if toAsciiLower name = "problem" ∨ toAsciiLower name = "problema" then .ok .Problem
  else if toAsciiLower name = "task" ∨ toAsciiLower name = "tarefa" then .ok .Task
  else .err "Unknown ticket type, expected question/pergunta, incident/incidente, problem/problema, task/tarefa"

/-- A proleptic-Gregorian calendar date (`chrono::NaiveDate`). -/
structure NaiveDate where
  year : Int
  month : Nat
  day : Nat
deriving DecidableEq, Repr

/-- Days since 1970-01-01 of a proleptic-Gregorian civil date (the standard
era-based civil-from-days/days-from-civil arithmetic, matching `chrono`). -/
def daysFromCivil (y : Int) (m : Nat) (d : Nat) : Int :=
  let y' : Int := if m ≤ 2 then y - 1 else y
  let era : Int := Int.fdiv y' 400
  let yoe : Int := y' - era * 400
  let mp : Int := if m ≤ 2 then (m : Int) + 9 else (m : Int) - 3
  let doy : Int := Int.fdiv (153 * mp + 2) 5 + (d : Int) - 1
  let doe : Int := yoe * 365 + Int.fdiv yoe 4 - Int.fdiv yoe 100 + doy
  era * 146097 + doe - 719468

/-- Inverse of `daysFromCivil`: the civil date of a day count since
1970-01-01 (matching `chrono`'s date arithmetic). -/
def civilFromDays (z : Int) : NaiveDate :=
  let z' : Int := z + 719468
  let era : Int := Int.fdiv z' 146097
  let doe : Int := z' - era * 146097
  let yoe : Int := Int.fdiv (doe - Int.fdiv doe 1460 + Int.fdiv doe 36524 - Int.fdiv doe 146096) 365
  let y : Int := yoe + era * 400
  let doy : Int := doe - (365 * yoe + Int.fdiv yoe 4 - Int.fdiv yoe 100)
  let mp : Int := Int.fdiv (5 * doy + 2) 153
  let d : Int := doy - Int.fdiv (153 * mp + 2) 5 + 1
  let m : Int := if mp < 10 then mp + 3 else mp - 9
  { year := if m ≤ 2 then y + 1 else y, month := m.toNat, day := d.toNat }

/-- The largest Unix timestamp representable by `chrono`'s `NaiveDateTime`
(23:59:59 on the last day of year 262143, `chrono`'s `MAX_YEAR`). -/
def chronoMaxTimestamp : Int := 86400 * daysFromCivil 262143 12 31 + 86399

/-- The smallest Unix timestamp representable by `chrono`'s `NaiveDateTime`
(00:00:00 on the first day of year -262144, `chrono`'s `MIN_YEAR`). -/
def chronoMinTimestamp : Int := 86400 * daysFromCivil (-262144) 1 1

/-- `chrono::NaiveDateTime::from_timestamp` (seconds part; the source always
passes 0 nanoseconds).  A `NaiveDateTime` is represented by its timestamp.
Returns `none` exactly where the Rust function panics: on a timestamp
outside the representable range. -/
def naiveFromTimestamp (secs : Int) : Option Int :=
  if chronoMinTimestamp ≤ secs ∧ secs ≤ chronoMaxTimestamp then some secs else none

/-- `f64::round`: round half away from zero. -/
def rround (x : Rat) : Int :=
  if 0 ≤ x then Int.floor (x + 1/2) else Int.ceil (x - 1/2)

/-- The `as i64` cast of a (rounded) float: saturating conversion. -/
def asI64 (n : Int) : Int :=
  max (-9223372036854775808) (min 9223372036854775807 n)

/-- UTC offsets in seconds of the four `chrono_tz::Brazil` zones matched by
`CustomFields::from_date` (external tz data): Acre UTC-5, DeNoronha UTC-2,
East UTC-3, West UTC-4.  These are the zones' current standard offsets;
they are the complete tz data only from the zones' final transitions
onwards (Brazil abolished DST in February 2019, and Acre's last offset
change — back from UTC-4 — was in 2013; tz data projects the final fixed
offset forward indefinitely).  The zones' historical phases (DST periods
until February 2019, Acre at UTC-4 during 2008-2013) are NOT modelled:
every theorem below that depends on this table either evaluates 2021
instants or carries a hypothesis restricting the local datetime to the
fixed-offset era (`brazilFixedOffsetEra`). -/
def zoneOffset (timezone : String) : Option Int :=
  if timezone = "Acre" then some (-18000)
  else if timezone = "DeNoronha" then some (-7200)
  else if timezone = "East" then some (-10800)
  else if timezone = "West" then some (-14400)
  else none

/-- Models `zone.from_local_datetime(&x).unwrap()` followed by
`with_timezone(&Utc)`: at a fixed offset the local result is `Single` and
the UTC instant is `local - offset`.  This models the source faithfully
only where the zone really is at the fixed offset of `zoneOffset` — local
datetimes in the zones' fixed-offset era (`brazilFixedOffsetEra`), plus the
2021 instants the concrete theorems evaluate.  For historical local
datetimes the real call can differ: inside a pre-2019 DST gap
`from_local_datetime` returns `None` and the `unwrap()` panics (and in a
fold it is ambiguous); no theorem below evaluates or claims anything about
that region. -/
def from_local_datetime_unwrap (off naive : Int) : Int :=
  naive - off

/-- `ApiValue` (src/main.rs): the untagged union of custom-field value
shapes.  The `DateTime` payload is represented by its Unix timestamp. -/
inductive ApiValue where
  | Common : String → ApiValue
  | DateTime : Int → ApiValue
  | Date : NaiveDate → ApiValue
  | Checkbox : Bool → ApiValue
  | MultiSelect : List String → ApiValue
deriving DecidableEq, Repr

/-- `CustomField` (src/main.rs): one dropdown option of a remote field. -/
structure CustomField where
  name : String
  value : ApiValue
deriving DecidableEq, Repr

/-- `TicketField` (src/main.rs): one remote field definition. -/
structure TicketField where
  id : Nat
  title : String
  field_type : String
  custom_field_options : Option (List CustomField)
deriving DecidableEq, Repr

/-- `CustomFields` (src/main.rs): an (id, value) pair sent to the API. -/
structure CustomFields where
  id : Nat
  value : ApiValue
deriving DecidableEq, Repr

/-- `CustomFields::from_integer` (src/main.rs): requires a `Float` cell (the
commented-out `get_int` call in the source is dead), serializes it with
`to_string`. -/
def CustomFields.from_integer (excel_data : Option DataType) (api_field : TicketField) :
    RRes CustomFields :=
  match (excel_data.bind DataType.get_float).map floatToString with
  | some s => .ok { id := api_field.id, value := .Common s }
  | none => .err ("Could not parse " ++ optionDataTypeDebug excel_data ++ " as integer")

/-- `CustomFields::from_decimal` (src/main.rs): identical to `from_integer`
except for the error message. -/
def CustomFields.from_decimal (excel_data : Option DataType) (api_field : TicketField) :
    RRes CustomFields :=
  match (excel_data.bind DataType.get_float).map floatToString with
  | some s => .ok { id := api_field.id, value := .Common s }
  | none => .err "Could not parse cell as float"

/-- `CustomFields::from_checkbox` (src/main.rs). -/
def CustomFields.from_checkbox (excel_data : Option DataType) (api_field : TicketField) :
    RRes CustomFields :=
  match excel_data.bind DataType.get_bool with
  | some b => .ok { id := api_field.id, value := .Checkbox b }
  | none => .err "Could not parse cell as boolean"

/-- `CustomFields::from_text` (src/main.rs). -/
def CustomFields.from_text (excel_data : Option DataType) (api_field : TicketField) :
    RRes CustomFields :=
  match excel_data.bind DataType.get_string with
  | some s => .ok { id := api_field.id, value := .Common s }
  | none => .err "Could not parse cell as string"

/-- `CustomFields::from_date` (src/main.rs): resolves the timezone name
(error on anything but the four Brazil zones), then maps a `Float` cell
through `(x - 25569) * 86400`, `round`, `as i64`,
`NaiveDateTime::from_timestamp` (reified panic out of `chrono`'s range),
`zone.from_local_datetime(..).unwrap()` (see `from_local_datetime_unwrap`:
exact in the fixed-offset era, where the result is `Single` and the UTC
instant is `local - offset`; the unwrap's own panic on pre-2019 DST-gap
local times lies outside the model and outside every theorem below),
`with_timezone(&Utc)` and `.date().naive_utc()` (the civil date of the
floor-divided day number). -/
def CustomFields.from_date (excel_data : Option DataType) (api_field : TicketField)
    (timezone : String) : RRes CustomFields :=
  match zoneOffset timezone with
  | none => .err "Unknown timezone"
  | some off =>
    match excel_data.bind DataType.get_float with
    | none => .err ("Could not parse " ++ optionDataTypeDebug excel_data ++ " as datetime")
    | some x =>
      match naiveFromTimestamp (asI64 (rround ((x - 25569) * 86400))) with
      | none => .panicked "invalid or out-of-range datetime"
      | some naive =>
        let utc : Int := from_local_datetime_unwrap off naive
        .ok { id := api_field.id, value := .Date (civilFromDays (Int.fdiv utc 86400)) }

/-- `CustomFields::from_tagger` (src/main.rs): the cell string must exactly
match the `name` of one of the field's dropdown options; the option's opaque
value is emitted. -/
def CustomFields.from_tagger (excel_data : Option DataType) (api_field : TicketField) :
    RRes CustomFields :=
  match (excel_data.bind DataType.get_string).bind (fun xcl =>
      (api_field.custom_field_options.bind (fun v =>
        v.find? (fun field => field.name == xcl))).map (fun x => x.value)) with
  | some value => .ok { id := api_field.id, value := value }
  | none => .err "Could not parse cell as dropdown menu option"

/-- `Comment` (src/main.rs). -/
structure Comment where
  body : String
deriving DecidableEq, Repr

/-- `Ticket` (src/main.rs): the record built from one row.  `custom_fields`
keeps one `Option` slot per configured custom mapping entry, exactly as the
source's `Vec<Option<CustomFields>>`. -/
structure Ticket where
  subject : Option String
  comment : Comment
  priority : Option Priority
  status : Option Status
  tickettype : Option TicketType
  assignee : Option String
  custom_fields : List (Option CustomFields)
deriving DecidableEq, Repr

/-- The per-field dispatch of the custom-field loop of `Ticket::from_row`
(the body of the closure passed to `.map`): dispatch on the remote field's
`field_type` tag, with the "Unknown Zendesk field type" error on any other
tag. -/
def coerceField (field : TicketField) (data : Option DataType) (timezone : String) :
    RRes CustomFields :=
  match field.field_type with
  | "integer" => CustomFields.from_integer data field
  | "decimal" => CustomFields.from_decimal data field
  | "date" => CustomFields.from_date data field timezone
  | "checkbox" => CustomFields.from_checkbox data field
  | "text" => CustomFields.from_text data field
  | "tagger" => CustomFields.from_tagger data field
  | unknown => .err ("Unknown Zendesk field type: " ++ unknown)

/-- Whether a result is the `err` constructor. -/
def RRes.isErr {α : Type} : RRes α → Bool
  | .err _ => true
  | _ => false

/-- The custom-field loop of `Ticket::from_row`: for each mapping entry in
iteration order, find the remote field with exactly equal title (slot is
`none` when there is none), coerce the cell at the entry's column with
`coerceField`, and short-circuit the whole build on the first coercion
error (`?`). -/
def buildCustomFields (entries : List (String × Nat)) (row : List DataType)
    (api_fields : List TicketField) (timezone : String) :
    RRes (List (Option CustomFields)) :=
  match entries with
  | [] => .ok []
  | (key, value) :: rest =>
    match otranspose ((api_fields.find? (fun x => x.title == key)).map (fun field =>
      coerceField field (row.get? value) timezone)) with
    | .err e => .err e
    | .panicked p => .panicked p
    | .ok custom_field =>
        RRes.map (fun cfs => custom_field :: cfs)
          (buildCustomFields rest row api_fields timezone)

/-- `Ticket::from_row` (src/main.rs), in source evaluation order: subject
(pure), comment (`?` on a missing or non-string cell), priority, status,
tickettype (each `transpose()?`), assignee (pure), then the custom-field
loop. -/
def Ticket.from_row (row : List DataType) (config : Config)
    (api_fields : List TicketField) : RRes Ticket :=
  let t := config.ticket.system_fields
  let subject := (t.subject.bind (fun x => row.get? x)).bind DataType.get_string
  match (row.get? t.comment).bind DataType.get_string with
  | none => .err "Comment cell should be a string"
  | some body =>
    match otranspose
        (((t.priority.bind (fun x => row.get? x)).bind DataType.get_string).map
          Priority.from_str) with
    | .err e => .err e
    | .panicked p => .panicked p
    | .ok priority =>
      match otranspose
          (((t.status.bind (fun x => row.get? x)).bind DataType.get_string).map
            Status.from_str) with
      | .err e => .err e
      | .panicked p => .panicked p
      | .ok status =>
        match otranspose
            (((t.tickettype.bind (fun x => row.get? x)).bind DataType.get_string).map
              TicketType.from_str) with
        | .err e => .err e
        | .panicked p => .panicked p
        | .ok tickettype =>
          let assignee := (t.assignee.bind (fun x => row.get? x)).bind DataType.get_string
          match buildCustomFields config.ticket.custom_fields row api_fields
              config.worksheet.timezone with
          | .err e => .err e
          | .panicked p => .panicked p
          | .ok custom_fields =>
            .ok { subject := subject, comment := { body := body }, priority := priority,
                  status := status, tickettype := tickettype, assignee := assignee,
                  custom_fields := custom_fields }

/-- A JSON value, for stating what serde serializes tickets to. -/
inductive Json where
  | null : Json
  | bool : Bool → Json
  | num : Int → Json
  | str : String → Json
  | arr : List Json → Json
  | obj : List (String × Json) → Json

/-- Looks up a key of a JSON object. -/
def Json.lookupKey (j : Json) (k : String) : Option Json :=
  match j with
  | .obj l => (l.find? (fun p => p.1 == k)).map (fun p => p.2)
  | _ => none

/-- Zero-padding of a number to a minimum width, for ISO dates. -/
def padNum (width : Nat) (n : Nat) : String :=
  let s := toString n
  String.mk (List.replicate (width - s.length) '0') ++ s

/-- serde serialization of `chrono::NaiveDate`: the ISO `%Y-%m-%d` string. -/
def NaiveDate.iso (d : NaiveDate) : String :=
  (if d.year < 0 then "-" else "") ++ padNum 4 d.year.natAbs ++ "-" ++
    padNum 2 d.month ++ "-" ++ padNum 2 d.day

/-- serde serialization of the untagged `ApiValue`.  The `DateTime` case
abbreviates the RFC 3339 text by its timestamp; no theorem depends on it. -/
def ApiValue.toJson : ApiValue → Json
  | .Common s => .str s
  | .DateTime t => .str (toString t)
  | .Date d => .str d.iso
  | .Checkbox b => .bool b
  | .MultiSelect l => .arr (l.map Json.str)

/-- serde serialization of one `custom_fields` slot: a `None` slot of the
`Vec<Option<CustomFields>>` (which has no skip attribute) serializes as
JSON `null`, a `Some` as the object with `id` and `value`. -/
def serializeCustomFieldSlot : Option CustomFields → Json
  | none => .null
  | some cf => .obj [("id", .num cf.id), ("value", cf.value.toJson)]

/-- serde serialization of `Ticket`, following the derive attributes in the
source: fields in declaration order; `subject`, `priority`, `status`,
`type` (renamed from `tickettype`) and `assignee` are skipped when `None`
(`skip_serializing_if = "Option::is_none"`); `comment` and `custom_fields`
are always present. -/
def Ticket.toJson (t : Ticket) : Json :=
  .obj
    ((match t.subject with
      | none => []
      | some s => [("subject", Json.str s)]) ++
    [("comment", Json.obj [("body", Json.str t.comment.body)])] ++
    (match t.priority with
      | none => []
      | some p => [("priority", Json.str p.wire)]) ++
    (match t.status with
      | none => []
      | some st => [("status", Json.str st.wire)]) ++
    (match t.tickettype with
      | none => []
      | some ty => [("type", Json.str ty.wire)]) ++
    (match t.assignee with
      | none => []
      | some a => [("assignee", Json.str a)]) ++
    [("custom_fields", Json.arr (t.custom_fields.map serializeCustomFieldSlot))])

/-- The exact mathematical value accumulated by the resolver loop: the sum of
(digit of character) times `26 ^ position`, positions counted from the least
significant (last) character. -/
def digitSum : List Char → Nat → Nat
  | [], _ => 0
  | c :: rest, idx => (c.toNat - 64) * 26 ^ idx + digitSum rest (idx + 1)

/-- A configuration fixture: empty URLs/credentials, worksheet in the given
timezone, comment mapped to column 0, no optional system fields, and the
given custom-field mapping. -/
def mkConfig (customs : List (String × Nat)) (tz : String) : Config :=
  { urls := { get_fields := "", post_many := "" },
    credentials := { api_token := "", email := "", subdomain := "" },
    worksheet := { name := "Sheet1", top_row := 1, timezone := tz },
    ticket := { system_fields :=
                  { comment := 0, subject := none, status := none,
                    tickettype := none, assignee := none, priority := none },
                custom_fields := customs } }

/-- A remote field definition fixture of the given type tag. -/
def mkField (t : String) : TicketField :=
  { id := 7, title := "K", field_type := t, custom_field_options := none }

/-! ## Helper lemmas about the column resolver -/

theorem digitSum_shift (cs : List Char) : ∀ idx : Nat, digitSum cs (idx + 1) = 26 * digitSum cs idx := by
  induction cs with
  | nil => intro idx; simp [digitSum]
  | cons c rest ih =>
    intro idx
    rw [digitSum, digitSum, ih (idx + 1), pow_succ]
    ring

theorem foldl_eq_digitSum (cs : List Char) :
    cs.foldl (fun acc c => acc * 26 + (c.toNat - 64)) 0 = digitSum cs.reverse 0 := by
  induction cs using List.reverseRecOn with
  | nil => simp [digitSum]
  | append_singleton ds c ih =>
    rw [List.foldl_append, List.reverse_append]
    simp only [List.foldl_cons, List.foldl_nil, List.reverse_singleton, List.singleton_append]
    rw [digitSum, digitSum_shift, ih]
    ring

theorem specColumnValue_eq_digitSum (l : String) :
    specColumnValue l = digitSum l.data.reverse 0 := by
  rw [specColumnValue, foldl_eq_digitSum]

theorem ectiLoop_eq_digitSum (cs : List Char) :
    ∀ idx ans : Nat, (∀ c ∈ cs, 65 ≤ c.toNat ∧ c.toNat ≤ 90) → ans < 4294967296 →
      ectiLoop cs idx ans = (ans + digitSum cs idx) % 4294967296 := by
  induction cs with
  | nil =>
    intro idx ans _ hlt
    simp [ectiLoop, digitSum, Nat.mod_eq_of_lt hlt]
  | cons c rest ih =>
    intro idx ans hval hlt
    have hc := hval c (List.mem_cons_self c rest)
    have hrest : ∀ x ∈ rest, 65 ≤ x.toNat ∧ x.toNat ≤ 90 := fun x hx =>
      hval x (List.mem_cons_of_mem c hx)
    rw [ectiLoop, ih (idx + 1) _ hrest (Nat.mod_lt _ (by norm_num)), digitSum]
    have hsub : u32sub c.toNat 64 = c.toNat - 64 := by
      unfold u32sub
      omega
    rw [hsub]
    have hcong : (ans + (c.toNat - 64) * (26 ^ idx % 4294967296) % 4294967296) % 4294967296 +
        digitSum rest (idx + 1) ≡
        ans + ((c.toNat - 64) * 26 ^ idx + digitSum rest (idx + 1)) [MOD 4294967296] := by
      calc (ans + (c.toNat - 64) * (26 ^ idx % 4294967296) % 4294967296) % 4294967296 +
            digitSum rest (idx + 1)
          ≡ ans + (c.toNat - 64) * (26 ^ idx % 4294967296) % 4294967296 +
            digitSum rest (idx + 1) [MOD 4294967296] :=
            Nat.ModEq.add_right _ (Nat.mod_modEq _ _)
        _ ≡ ans + (c.toNat - 64) * 26 ^ idx + digitSum rest (idx + 1) [MOD 4294967296] :=
            Nat.ModEq.add_right _ (Nat.ModEq.add_left ans
              ((Nat.mod_modEq _ _).trans (Nat.ModEq.mul_left _ (Nat.mod_modEq _ _))))
        _ = ans + ((c.toNat - 64) * 26 ^ idx + digitSum rest (idx + 1)) := by ring
    exact hcong

theorem digitSum_pos (c : Char) (rest : List Char) (h : 65 ≤ c.toNat) :
    1 ≤ digitSum (c :: rest) 0 := by
  rw [digitSum]
  have h26 : 1 ≤ (c.toNat - 64) * 26 ^ 0 := by
    simp only [pow_zero, mul_one]
    omega
  omega

/-- C2.  Corrected form.  The base-26 resolution law holds for every
non-empty uppercase-ASCII label whose base-26 value fits the `u32`
accumulator (in particular every label of at most 6 letters, hence every
real spreadsheet column); the four concrete values of the claim hold; and a
label containing a non-alphabetic character (digit or symbol) is rejected by
mapping validation with the configuration error.  The unrestricted claim is
refuted by `excel_column_to_index_overflow_cex`: a 7-letter label overflows
the 32-bit accumulator.  (Code points 65–90 are the uppercase ASCII
letters.) -/
theorem excel_column_to_index_base26 :
    (∀ l : String, l ≠ "" → (∀ c ∈ l.data, 65 ≤ c.toNat ∧ c.toNat ≤ 90) →
      specColumnValue l < 4294967296 →
      excel_column_to_index l = some (specColumnValue l - 1)) ∧
    excel_column_to_index "A" = some 0 ∧
    excel_column_to_index "Z" = some 25 ∧
    excel_column_to_index "AA" = some 26 ∧
    excel_column_to_index "AZ" = some 51 ∧
    (∀ l : String, (∃ c ∈ l.data, ¬ Char.isAsciiAlphabetic c) →
      custom_deserializer l =
        .err "Excel columns can\x27t contain non-ascii-aphabetic characters") := by
  refine ⟨?_, by decide, by decide, by decide, by decide, ?_⟩
  · intro l hne hval hlt
    have hdata : l.data ≠ [] := by
      intro h
      exact hne (by cases l; simp_all)
    rw [excel_column_to_index, if_neg hne]
    have hval' : ∀ c ∈ l.data.reverse, 65 ≤ c.toNat ∧ c.toNat ≤ 90 := by
      intro c hc
      exact hval c (List.mem_reverse.mp hc)
    rw [ectiLoop_eq_digitSum l.data.reverse 0 0 hval' (by norm_num), Nat.zero_add]
    have hS := specColumnValue_eq_digitSum l
    obtain ⟨c, cs, hcs⟩ : ∃ c cs, l.data.reverse = c :: cs := by
      cases h : l.data.reverse with
      | nil => exact absurd (by simpa using h) hdata
      | cons c cs => exact ⟨c, cs, rfl⟩
    have hpos : 1 ≤ digitSum l.data.reverse 0 := by
      rw [hcs]
      exact digitSum_pos c cs (hval' c (hcs ▸ List.mem_cons_self c cs)).1
    rw [← hS] at hpos ⊢
    have harith : (specColumnValue l % 4294967296 + 4294967295) % 4294967296 =
        specColumnValue l - 1 := by omega
    rw [harith]
  · intro l hbad
    rw [custom_deserializer]
    have hfalse : l.data.all Char.isAsciiAlphabetic = false := by
      obtain ⟨c, hc, hna⟩ := hbad
      exact List.all_eq_false.mpr ⟨c, hc, hna⟩
    rw [hfalse]
    rfl

/-- Witness for C2: the resolution law applied at the concrete label "AZ"
(value 52, index 51) and the rejection applied at the label "A1". -/
theorem excel_column_to_index_base26_witness :
    excel_column_to_index "AZ" = some (specColumnValue "AZ" - 1) ∧
    custom_deserializer "A1" =
      .err "Excel columns can\x27t contain non-ascii-aphabetic characters" := by
  refine ⟨excel_column_to_index_base26.1 "AZ" (by decide) (by decide) (by decide),
    excel_column_to_index_base26.2.2.2.2.2 "A1" ⟨'1', by decide, by decide⟩⟩

/-- Counterexample for C2 as stated: on the 7-letter uppercase label
"ZZZZZZZ" the `u32` accumulator wraps, so the resolver does not return the
base-26 value minus one (8353082581) but the wrapped 4058115285.  (Under a
debug profile the same overflow panics instead; under neither profile does
the claimed value come out.) -/
theorem excel_column_to_index_overflow_cex :
    excel_column_to_index "ZZZZZZZ" = some 4058115285 ∧
    specColumnValue "ZZZZZZZ" - 1 = 8353082581 ∧
    excel_column_to_index "ZZZZZZZ" ≠ some (specColumnValue "ZZZZZZZ" - 1) := by
  refine ⟨by decide, by decide, by decide⟩

/-- C3.  The case-insensitivity claim is right about the intent but wrong
about the code: `excel_column_to_index` contains
`col_name.to_owned().make_ascii_uppercase()`, which uppercases a temporary
copy and throws it away, so lowercase labels are resolved from their raw
code points: resolve("a") = 32, not resolve("A") = 0.  The dead uppercasing
call shows case-insensitivity was the author's intent, so this is a bug in
the code. -/
theorem excel_column_to_index_case_bug :
    excel_column_to_index "a" = some 32 ∧
    excel_column_to_index "A" = some 0 ∧
    excel_column_to_index "a" ≠ excel_column_to_index "A" := by
  refine ⟨by decide, by decide, by decide⟩

/-- C9.  The claim is right that an empty label on an optional field means
"field not mapped" (`ok none`) and that empty labels on custom entries are
skipped; but for the mandatory comment field the code does NOT report a
configuration error on the empty label: the vacuously-true alphabetic check
lets "" through to `excel_column_to_index("").unwrap()`, which panics
(unwrap of `None`).  This contradicts the claimed no-panic behaviour, and
the validation right before shows rejecting bad labels with errors was the
intent, so this is a bug in the code. -/
theorem empty_comment_label_panics :
    custom_deserializer "" = .panicked "called Option::unwrap() on a None value" ∧
    custom_deserializer_opt "" = .ok none ∧
    custom_flattener [("Campo", "")] = .ok [] := by
  refine ⟨by decide, by decide, by decide⟩

/-- C6.  Each enumerated system-field parser maps exactly the accepted
spellings, up to ASCII case, to its single canonical variant, errors on every
other string, and `Status::from_str` never produces the wire value "new". -/
theorem enum_from_str_exact_spellings :
    (∀ s : String,
      (Priority.from_str s = .ok .Low ↔ toAsciiLower s = "low" ∨ toAsciiLower s = "baixa") ∧
      (Priority.from_str s = .ok .Normal ↔ toAsciiLower s = "normal") ∧
      (Priority.from_str s = .ok .High ↔ toAsciiLower s = "high" ∨ toAsciiLower s = "alta") ∧
      (Priority.from_str s = .ok .Urgent ↔ toAsciiLower s = "urgent" ∨ toAsciiLower s = "urgente") ∧
      ((∃ e, Priority.from_str s = .err e) ↔
        toAsciiLower s ∉ ["low", "baixa", "normal", "high", "alta", "urgent", "urgente"])) ∧
    (∀ s : String,
      (Status.from_str s = .ok .Open ↔ toAsciiLower s = "open" ∨ toAsciiLower s = "aberto") ∧
      (Status.from_str s = .ok .Pending ↔ toAsciiLower s = "pending" ∨ toAsciiLower s = "pendente") ∧
      (Status.from_str s = .ok .Hold ↔ toAsciiLower s = "hold" ∨ toAsciiLower s = "em espera") ∧
      (Status.from_str s = .ok .Solved ↔ toAsciiLower s = "solved" ∨ toAsciiLower s = "resolvido") ∧
      (Status.from_str s = .ok .Closed ↔ toAsciiLower s = "closed" ∨ toAsciiLower s = "fechado") ∧
      ((∃ e, Status.from_str s = .err e) ↔
        toAsciiLower s ∉ ["open", "aberto", "pending", "pendente", "hold", "em espera",
          "solved", "resolvido", "closed", "fechado"]) ∧
      Status.from_str s ≠ .ok .New) ∧
    (∀ s : String,
      (TicketType.from_str s = .ok .Question ↔
        toAsciiLower s = "question" ∨ toAsciiLower s = "pergunta") ∧
      (TicketType.from_str s = .ok .Incident ↔
        toAsciiLower s = "incident" ∨ toAsciiLower s = "incidente") ∧
      (TicketType.from_str s = .ok .Problem ↔
        toAsciiLower s = "problem" ∨ toAsciiLower s = "problema") ∧
      (TicketType.from_str s = .ok .Task ↔
        toAsciiLower s = "task" ∨ toAsciiLower s = "tarefa") ∧
      ((∃ e, TicketType.from_str s = .err e) ↔
        toAsciiLower s ∉ ["question", "pergunta", "incident", "incidente", "problem",
          "problema", "task", "tarefa"])) := by
  refine ⟨fun s => ?_, fun s => ?_, fun s => ?_⟩
  · unfold Priority.from_str
    split_ifs <;> simp_all <;>
      (rename_i hdisj; rcases hdisj with h | h <;> simp_all)
  · unfold Status.from_str
    split_ifs <;> simp_all <;>
      (rename_i hdisj; rcases hdisj with h | h <;> simp_all)
  · unfold TicketType.from_str
    split_ifs <;> simp_all <;>
      (rename_i hdisj; rcases hdisj with h | h <;> simp_all)

/-- Witness for C6: concrete spellings in mixed case map to the canonical
values, and "new" is not an accepted status spelling. -/
theorem enum_from_str_exact_spellings_witness :
    Priority.from_str "ALTA" = .ok .High ∧
    Status.from_str "Fechado" = .ok .Closed ∧
    TicketType.from_str "tarefa" = .ok .Task ∧
    Status.from_str "new" ≠ .ok .New :=
  ⟨((enum_from_str_exact_spellings.1 "ALTA").2.2.1).mpr (Or.inr (by decide)),
   ((enum_from_str_exact_spellings.2.1 "Fechado").2.2.2.2.1).mpr (Or.inr (by decide)),
   ((enum_from_str_exact_spellings.2.2 "tarefa").2.2.2.1).mpr (Or.inr (by decide)),
   (enum_from_str_exact_spellings.2.1 "new").2.2.2.2.2.2⟩

/-- C5.  Corrected form: `from_integer` and `from_decimal` agree on every
numeric cell (both emit the float's decimal string as a `Common` value), and
both err exactly on a missing or non-numeric cell — but they are not
extensionally equal, because their error values differ (see
`from_integer_decimal_cex`). -/
theorem from_integer_decimal_agree :
    ∀ (d : Option DataType) (f : TicketField),
      (∃ x, d.bind DataType.get_float = some x ∧
        CustomFields.from_integer d f = .ok { id := f.id, value := .Common (floatToString x) } ∧
        CustomFields.from_decimal d f = CustomFields.from_integer d f) ∨
      (d.bind DataType.get_float = none ∧
        CustomFields.from_integer d f =
          .err ("Could not parse " ++ optionDataTypeDebug d ++ " as integer") ∧
        CustomFields.from_decimal d f = .err "Could not parse cell as float") := by
  intro d f
  match h : d.bind DataType.get_float with
  | some x =>
    left
    exact ⟨x, rfl, by simp [CustomFields.from_integer, h],
      by simp [CustomFields.from_decimal, CustomFields.from_integer, h]⟩
  | none =>
    right
    exact ⟨rfl, by simp [CustomFields.from_integer, h],
      by simp [CustomFields.from_decimal, h]⟩

/-- Counterexample for C5 as stated: on a missing cell the two coercions do
not return the same result — `from_integer` reports "Could not parse None as
integer" while `from_decimal` reports "Could not parse cell as float". -/
theorem from_integer_decimal_cex :
    CustomFields.from_integer none (mkField "integer") ≠
      CustomFields.from_decimal none (mkField "decimal") ∧
    CustomFields.from_integer none (mkField "integer") =
      .err "Could not parse None as integer" ∧
    CustomFields.from_decimal none (mkField "decimal") =
      .err "Could not parse cell as float" := by
  refine ⟨by decide, by decide, by decide⟩

/-- C1.  Record construction is all-or-nothing per row: a missing or
non-string comment cell makes `Ticket::from_row` return the error (no
record); with a valid string comment and the optional enumerated fields
unmapped (and no custom entries) the build succeeds with exactly those
fields omitted; and whenever the build succeeds with priority unmapped, the
resulting record omits priority (never a partial or defaulted value). -/
theorem from_row_all_or_nothing :
    ∀ (row : List DataType) (config : Config) (api_fields : List TicketField),
      ((row.get? config.ticket.system_fields.comment).bind DataType.get_string = none →
        Ticket.from_row row config api_fields = .err "Comment cell should be a string") ∧
      (∀ s, (row.get? config.ticket.system_fields.comment).bind DataType.get_string = some s →
        config.ticket.system_fields.priority = none →
        config.ticket.system_fields.status = none →
        config.ticket.system_fields.tickettype = none →
        config.ticket.custom_fields = [] →
        Ticket.from_row row config api_fields =
          .ok { subject := (config.ticket.system_fields.subject.bind
                  (fun x => row.get? x)).bind DataType.get_string,
                comment := { body := s },
                priority := none, status := none, tickettype := none,
                assignee := (config.ticket.system_fields.assignee.bind
                  (fun x => row.get? x)).bind DataType.get_string,
                custom_fields := [] }) ∧
      (∀ t, config.ticket.system_fields.priority = none →
        Ticket.from_row row config api_fields = .ok t → t.priority = none) := by
  intro row config api_fields
  refine ⟨?_, ?_, ?_⟩
  · intro h
    simp only [List.get?_eq_getElem?] at h
    simp [Ticket.from_row, h]
  · intro s hs hp hst hty hcf
    simp only [List.get?_eq_getElem?] at hs
    simp [Ticket.from_row, hs, hp, hst, hty, hcf, otranspose, buildCustomFields]
  · intro t hp hok
    rw [Ticket.from_row] at hok
    repeat' split at hok
    all_goals (try simp_all [otranspose])
    all_goals (rw [← hok])

/-- Witness for C1: a one-cell row whose comment is the string "hi", under a
configuration that maps only the comment column, builds the complete record
with every optional field omitted. -/
theorem from_row_all_or_nothing_witness :
    Ticket.from_row [DataType.String "hi"] (mkConfig [] "East") [] =
      .ok { subject := none, comment := { body := "hi" }, priority := none, status := none,
            tickettype := none, assignee := none, custom_fields := [] } :=
  (from_row_all_or_nothing [DataType.String "hi"] (mkConfig [] "East") []).2.1 "hi"
    (by decide) rfl rfl rfl rfl

/-! ## Helper lemmas for evaluating the date coercion -/

theorem from_date_eval (f : TicketField) (tz : String) (off : Int) (x : Rat) (n : Int)
    (hz : zoneOffset tz = some off)
    (hn : naiveFromTimestamp (asI64 (rround ((x - 25569) * 86400))) = some n) :
    CustomFields.from_date (some (.Float x)) f tz =
      .ok { id := f.id, value := .Date (civilFromDays (Int.fdiv (n - off) 86400)) } := by
  simp [CustomFields.from_date, from_local_datetime_unwrap, hz, DataType.get_float, hn]

theorem rround_serial_44197 : rround (((44197 : Rat) - 25569) * 86400) = 1609459200 := by
  unfold rround
  rw [if_pos (by norm_num)]
  norm_num

theorem naive_serial_44197 :
    naiveFromTimestamp (asI64 (rround (((44197 : Rat) - 25569) * 86400))) =
      some 1609459200 := by
  rw [rround_serial_44197]
  decide

/-- C4.  A cell holding the spreadsheet serial 44197 yields the calendar
date 2021-01-01 under every one of the four recognized zone names (the
serial is 2021-01-01 00:00 local; the zones sit at UTC-5, UTC-2, UTC-3 and UTC-4, so the
UTC instant stays on 2021-01-01), and any other timezone name yields the
"Unknown timezone" error regardless of the cell. -/
theorem from_date_serial_44197 :
    (∀ f : TicketField, ∀ tz ∈ (["Acre", "DeNoronha", "East", "West"] : List String),
      CustomFields.from_date (some (.Float 44197)) f tz =
        .ok { id := f.id, value := .Date { year := 2021, month := 1, day := 1 } }) ∧
    (∀ (d : Option DataType) (f : TicketField) (tz : String),
      tz ∉ (["Acre", "DeNoronha", "East", "West"] : List String) →
      CustomFields.from_date d f tz = .err "Unknown timezone") := by
  constructor
  · intro f tz htz
    have htz' : tz = "Acre" ∨ tz = "DeNoronha" ∨ tz = "East" ∨ tz = "West" := by
      simpa using htz
    rcases htz' with h | h | h | h <;> subst h
    · rw [from_date_eval f "Acre" (-18000) 44197 1609459200 rfl naive_serial_44197]
      have hciv : civilFromDays (Int.fdiv ((1609459200 : Int) - (-18000)) 86400) =
          { year := 2021, month := 1, day := 1 } := by decide
      rw [hciv]
    · rw [from_date_eval f "DeNoronha" (-7200) 44197 1609459200 rfl naive_serial_44197]
      have hciv : civilFromDays (Int.fdiv ((1609459200 : Int) - (-7200)) 86400) =
          { year := 2021, month := 1, day := 1 } := by decide
      rw [hciv]
    · rw [from_date_eval f "East" (-10800) 44197 1609459200 rfl naive_serial_44197]
      have hciv : civilFromDays (Int.fdiv ((1609459200 : Int) - (-10800)) 86400) =
          { year := 2021, month := 1, day := 1 } := by decide
      rw [hciv]
    · rw [from_date_eval f "West" (-14400) 44197 1609459200 rfl naive_serial_44197]
      have hciv : civilFromDays (Int.fdiv ((1609459200 : Int) - (-14400)) 86400) =
          { year := 2021, month := 1, day := 1 } := by decide
      rw [hciv]
  · intro d f tz htz
    simp only [List.mem_cons, List.not_mem_nil, or_false, not_or] at htz
    obtain ⟨h1, h2, h3, h4⟩ := htz
    have hz : zoneOffset tz = none := by
      rw [zoneOffset, if_neg h1, if_neg h2, if_neg h3, if_neg h4]
    simp [CustomFields.from_date, hz]

/-- Witness for C4: serial 44197 under "East" produces 2021-01-01, and the
unrecognized name "Brasilia" produces the timezone error. -/
theorem from_date_serial_44197_witness :
    CustomFields.from_date (some (.Float 44197)) (mkField "date") "East" =
      .ok { id := (mkField "date").id, value := .Date { year := 2021, month := 1, day := 1 } } ∧
    CustomFields.from_date (some (.Float 44197)) (mkField "date") "Brasilia" =
      .err "Unknown timezone" :=
  ⟨from_date_serial_44197.1 (mkField "date") "East" (by decide),
   from_date_serial_44197.2 (some (.Float 44197)) (mkField "date") "Brasilia" (by decide)⟩

theorem isErr_iff {α : Type} (r : RRes α) : r.isErr = true ↔ ∃ e, r = .err e := by
  cases r <;> simp [RRes.isErr]

theorem find_title_none (api_fields : List TicketField) (key : String)
    (h : ∀ f ∈ api_fields, f.title ≠ key) :
    api_fields.find? (fun x => x.title == key) = none := by
  induction api_fields with
  | nil => rfl
  | cons f rest ih =>
    have hf : (f.title == key) = false := by
      simpa using h f (List.mem_cons_self f rest)
    rw [List.find?_cons, hf]
    exact ih fun g hg => h g (List.mem_cons_of_mem f hg)

theorem buildCustomFields_unmatched (entries : List (String × Nat)) (row : List DataType)
    (api_fields : List TicketField) (tz : String)
    (h : ∀ kv ∈ entries, ∀ f ∈ api_fields, f.title ≠ kv.1) :
    buildCustomFields entries row api_fields tz = .ok (List.replicate entries.length none) := by
  induction entries with
  | nil => rfl
  | cons kv rest ih =>
    obtain ⟨key, value⟩ := kv
    have hfind : api_fields.find? (fun x => x.title == key) = none :=
      find_title_none api_fields key fun f hf =>
        h (key, value) (List.mem_cons_self _ _) f hf
    rw [buildCustomFields, hfind]
    rw [ih fun kv hkv => h kv (List.mem_cons_of_mem _ hkv)]
    rfl

theorem coerceField_blank_err (field : TicketField) (data : Option DataType) (tz : String)
    (h : data = none ∨ data = some .Empty) :
    (coerceField field data tz).isErr = true := by
  have hf : data.bind DataType.get_float = none := by
    rcases h with h | h <;> subst h <;> rfl
  have hs : data.bind DataType.get_string = none := by
    rcases h with h | h <;> subst h <;> rfl
  have hb : data.bind DataType.get_bool = none := by
    rcases h with h | h <;> subst h <;> rfl
  rw [coerceField]
  split
  · simp [CustomFields.from_integer, hf, RRes.isErr]
  · simp [CustomFields.from_decimal, hf, RRes.isErr]
  · cases hz : zoneOffset tz with
    | none => simp [CustomFields.from_date, hz, RRes.isErr]
    | some off => simp [CustomFields.from_date, hz, hf, RRes.isErr]
  · simp [CustomFields.from_checkbox, hb, RRes.isErr]
  · simp [CustomFields.from_text, hs, RRes.isErr]
  · simp [CustomFields.from_tagger, hs, RRes.isErr]
  · rfl

/-- C7.  Corrected form.  When no remote field definition's title equals any
configured custom-field mapping key, record building succeeds and every such
key yields an *empty slot* (`none`) in the record's `custom_fields` vector —
but the slot is not absent from the serialized payload: the
`Vec<Option<CustomFields>>` has no skip attribute, so each empty slot
serializes as JSON `null` inside the `custom_fields` array.  The "absent,
not null" part of the claim is refuted by
`unmatched_custom_key_serializes_null_cex`. -/
theorem unmatched_custom_keys_null_slots :
    ∀ (row : List DataType) (config : Config) (api_fields : List TicketField) (s : String),
      (∀ kv ∈ config.ticket.custom_fields, ∀ f ∈ api_fields, f.title ≠ kv.1) →
      (row.get? config.ticket.system_fields.comment).bind DataType.get_string = some s →
      config.ticket.system_fields.priority = none →
      config.ticket.system_fields.status = none →
      config.ticket.system_fields.tickettype = none →
      ∃ t, Ticket.from_row row config api_fields = .ok t ∧
        t.custom_fields = List.replicate config.ticket.custom_fields.length none ∧
        (Ticket.toJson t).lookupKey "custom_fields" =
          some (.arr (List.replicate config.ticket.custom_fields.length .null)) := by
  intro row config api_fields s hun hs hp hst hty
  have hb := buildCustomFields_unmatched config.ticket.custom_fields row api_fields
    config.worksheet.timezone hun
  refine ⟨{ subject := (config.ticket.system_fields.subject.bind
              (fun x => row.get? x)).bind DataType.get_string,
            comment := { body := s },
            priority := none, status := none, tickettype := none,
            assignee := (config.ticket.system_fields.assignee.bind
              (fun x => row.get? x)).bind DataType.get_string,
            custom_fields := List.replicate config.ticket.custom_fields.length none },
    ?_, rfl, ?_⟩
  · simp only [List.get?_eq_getElem?] at hs
    simp [Ticket.from_row, hs, hp, hst, hty, otranspose, hb]
  · rcases (config.ticket.system_fields.subject.bind
        (fun x => row.get? x)).bind DataType.get_string with _ | v <;>
    rcases (config.ticket.system_fields.assignee.bind
        (fun x => row.get? x)).bind DataType.get_string with _ | w <;>
      simp [Ticket.toJson, Json.lookupKey, serializeCustomFieldSlot, List.map_replicate]

/-- Witness for C7 (amended form): one unmatched key "Nope" against a field
list whose only title is "Other" gives a successful build with a single
`none` slot, serialized as one `null`. -/
theorem unmatched_custom_keys_null_slots_witness :
    ∃ t, Ticket.from_row [DataType.String "hi", DataType.String "x"]
        (mkConfig [("Nope", 1)] "East")
        [{ id := 55, title := "Other", field_type := "text", custom_field_options := none }] =
        .ok t ∧
      t.custom_fields = List.replicate 1 none ∧
      (Ticket.toJson t).lookupKey "custom_fields" = some (.arr (List.replicate 1 .null)) :=
  unmatched_custom_keys_null_slots [DataType.String "hi", DataType.String "x"]
    (mkConfig [("Nope", 1)] "East")
    [{ id := 55, title := "Other", field_type := "text", custom_field_options := none }]
    "hi" (by decide) (by decide) rfl rfl rfl

/-- Counterexample for C7 as stated: with the single unmatched key "Nope",
the build succeeds with slot `none`, and the serialized record's
`custom_fields` array is `[null]` — the unmatched key contributes a `null`
entry to the payload, it is not absent. -/
theorem unmatched_custom_key_serializes_null_cex :
    Ticket.from_row [DataType.String "hi", DataType.String "x"]
      (mkConfig [("Nope", 1)] "East")
      [{ id := 55, title := "Other", field_type := "text", custom_field_options := none }] =
      .ok { subject := none,
            comment := { body := "hi" },
            priority := none,
            status := none,
            tickettype := none,
            assignee := none,
            custom_fields := [none] } ∧
    (Ticket.toJson { subject := none,
                     comment := { body := "hi" },
                     priority := none,
                     status := none,
                     tickettype := none,
                     assignee := none,
                     custom_fields := [none] }).lookupKey "custom_fields" =
      some (.arr [.null]) := by
  exact ⟨by decide, rfl⟩

/-- C8.  Corrected form.  When a custom-field mapping entry's key does match
a remote field definition but its source cell is blank (`Empty`) or absent
from the row, record building does NOT succeed with an empty slot: every
coercion branch fails on missing data, so the whole record build returns an
error.  (Empty slots arise only for unmatched keys — see C7.)  The original
claim is refuted at a concrete input by
`matched_key_blank_cell_errors_cex`. -/
theorem matched_key_blank_cell_errors :
    ∀ (row : List DataType) (config : Config) (api_fields : List TicketField)
      (key : String) (col : Nat) (field : TicketField) (s : String),
      config.ticket.custom_fields = [(key, col)] →
      api_fields.find? (fun x => x.title == key) = some field →
      (row.get? col = none ∨ row.get? col = some .Empty) →
      (row.get? config.ticket.system_fields.comment).bind DataType.get_string = some s →
      config.ticket.system_fields.priority = none →
      config.ticket.system_fields.status = none →
      config.ticket.system_fields.tickettype = none →
      ∃ e, Ticket.from_row row config api_fields = .err e := by
  intro row config api_fields key col field s hcf hfind hblank hs hp hst hty
  obtain ⟨e, he⟩ := (isErr_iff _).mp
    (coerceField_blank_err field (row.get? col) config.worksheet.timezone hblank)
  refine ⟨e, ?_⟩
  have hbuild : buildCustomFields config.ticket.custom_fields row api_fields
      config.worksheet.timezone = .err e := by
    rw [hcf, buildCustomFields, hfind]
    simp only [Option.map_some', he]
    rfl
  simp only [List.get?_eq_getElem?] at hs
  simp [Ticket.from_row, hs, hp, hst, hty, otranspose, hbuild]

/-- Witness for C8 (amended form): key "K" matches a text field, the row has
no cell in column 5, and the build errors. -/
theorem matched_key_blank_cell_errors_witness :
    ∃ e, Ticket.from_row [DataType.String "hi"] (mkConfig [("K", 5)] "East")
      [mkField "text"] = .err e :=
  matched_key_blank_cell_errors [DataType.String "hi"] (mkConfig [("K", 5)] "East")
    [mkField "text"] "K" 5 (mkField "text") "hi" rfl (by decide) (Or.inl (by decide))
    (by decide) rfl rfl rfl

/-- Counterexample for C8 as stated: with a matched key "K" (a text field)
whose source cell is absent, the record build returns the coercion error
"Could not parse cell as string" instead of succeeding with an empty
slot. -/
theorem matched_key_blank_cell_errors_cex :
    Ticket.from_row [DataType.String "hi"] (mkConfig [("K", 5)] "East") [mkField "text"] =
      .err "Could not parse cell as string" := by
  decide
